import Mathlib

/-!
Shallow embedding of the vCard mapping layer (`vcard.go`) of the
mdzz/vcard repository, together with spec-modelled versions of the
directory-information core accessors it calls (the core's source is not
part of the mapping-layer file).

Data model: a `Value` is an ordered list of strings, a `StructuredValue`
is an ordered list of `Value`s, and a `ContentLine` carries a group, a
name, a parameter map (modelled as an association list, since Go map
keys are unique) and a structured value.
-/

set_option maxRecDepth 4000

namespace vcard

/-- A `Value` is an ordered sequence of strings (comma-separated elements
of one structured-value component). -/
abbrev Value := List String

/-- A `StructuredValue` is an ordered sequence of `Value` components
(semicolon-separated at the top level). -/
abbrev StructuredValue := List Value

/-- Modelled from the spec: the core's `Value.GetText` accessor renders a
`Value` as plain text; the first element is the text, an absent or empty
value (such as Go's nil zero value from a missing map key) yields the
empty string. -/
def Value.getText (v : Value) : String :=
  v.headD ""

/-- Modelled from the spec: the core's `StructuredValue.GetText` accessor
renders the first component of a structured value as plain text. -/
def StructuredValue.getText (sv : StructuredValue) : String :=
  Value.getText (sv.headD [])

/-- Modelled from the spec: the core's `StructuredValue.GetTextList`
accessor flattens all components of a structured value into one list of
strings. -/
def StructuredValue.getTextList : StructuredValue → List String
  | [] => []
  | v :: rest => v ++ StructuredValue.getTextList rest

/-- One logical directory-information entry, as produced by the core's
scanner and consumed by `ReadFrom` (`ContentLine` in the Go source). -/
structure ContentLine where
  group : String
  name : String
  params : List (String × Value)
  value : StructuredValue
deriving DecidableEq

/-- Exact-key lookup in the parameter map, as Go's map indexing does
(`contentLine.Params[k]` with the `ok` flag). -/
def lookupParam (ps : List (String × Value)) (k : String) : Option Value :=
  match ps.find? (fun p => p.1 == k) with
  | some p => some p.2
  | none => none

/-- Go's `contentLine.Params[k].GetText()`: a missing key yields the nil
`Value`, whose text is the empty string. -/
def paramGetText (ps : List (String × Value)) (k : String) : String :=
  Value.getText ((lookupParam ps k).getD [])

/-- ASCII lowercase of one character. -/
def charToLower (c : Char) : Char :=
  if 'A' ≤ c ∧ c ≤ 'Z' then Char.ofNat (c.toNat + 32) else c

/-- Go's `strings.ToLower`, modelled on ASCII letters. The only use is
the comparison with the all-ASCII literal `quoted-printable`, on which
this model agrees with full Unicode lowercasing for every input: a
non-ASCII character stays non-ASCII under either and the comparison is
false either way. -/
def toLowerAscii (s : String) : String :=
  String.mk (s.data.map charToLower)

/-- Hexadecimal digit test for the quoted-printable decoder. -/
def isHexDigit (c : Char) : Bool :=
  c.isDigit || ('A' ≤ c && c ≤ 'F') || ('a' ≤ c && c ≤ 'f')

/-- Numeric value of a hexadecimal digit. -/
def hexVal (c : Char) : Nat :=
  if c.isDigit then c.toNat - '0'.toNat
  else if c ≤ 'F' then c.toNat - 'A'.toNat + 10
  else c.toNat - 'a'.toNat + 10

/-- Modelled from the spec: the Quoted-Printable Codec's decoder
(`newQuotedPrintableReader` composed with `ReadAll` in the Go source,
whose implementation is outside the mapping-layer file). An `=XX` escape
with two hex digits becomes the byte `XX`; an `=` before a line ending
(or at the end of the input) is a soft break and is removed; any other
use of `=` is a malformed escape and the whole decode fails (`none`). -/
def qpDecodeAux : List Char → Option (List Char)
  | [] => some []
  | '=' :: rest =>
    match rest with
    | [] => some []
    | '\n' :: rest' => qpDecodeAux rest'
    | '\r' :: '\n' :: rest' => qpDecodeAux rest'
    | c1 :: c2 :: rest' =>
      if isHexDigit c1 && isHexDigit c2 then
        match qpDecodeAux rest' with
        | some ds => some (Char.ofNat (16 * hexVal c1 + hexVal c2) :: ds)
        | none => none
      else none
    | _ :: [] => none
  | c :: rest =>
    match qpDecodeAux rest with
    | some ds => some (c :: ds)
    | none => none

/-- Decode a quoted-printable string; `none` signals a decode error. -/
def qpDecode (s : String) : Option String :=
  match qpDecodeAux s.data with
  | some ds => some (String.mk ds)
  | none => none

/-- The decoded text when decoding succeeds, the raw text when it
fails — the fallback behaviour of `getValueFromContentLine`. -/
def decodeOrRaw (t : String) : String :=
  match qpDecode t with
  | some d => d
  | none => t

-- Constants defining name information indexes in the directory
-- information StructuredValue (from the Go source).
def familyNames : Nat := 0
def givenNames : Nat := 1
def additionalNames : Nat := 2
def honorificPrefixes : Nat := 3
def honorificSuffixes : Nat := 4
def nameSize : Nat := honorificSuffixes + 1

-- Constants defining address information indexes in the directory
-- information StructuredValue (from the Go source).
def postOfficeBox : Nat := 0
def extendedAddress : Nat := 1
def street : Nat := 2
def locality : Nat := 3
def region : Nat := 4
def postalCode : Nat := 5
def countryName : Nat := 6
def addressSize : Nat := countryName + 1

/-- The same content line with every `ENCODING` parameter removed; used
to compare a read under a declared encoding with a plain read. -/
def stripEncoding (cl : ContentLine) : ContentLine :=
  { cl with params := cl.params.filter (fun p => p.1 != "ENCODING") }

/-- `getValueFromContentLine` from the Go source: for an in-range index
it returns the component list together with its text, the text being
quoted-printable decoded when the line's parameters declare
`ENCODING=QUOTED-PRINTABLE` (case-insensitively) and the decode
succeeds, and kept raw when the decode fails; for an out-of-range index
it returns the empty list and the empty string. -/
def getValueFromContentLine (index : Nat) (contentLine : ContentLine) : List String × String :=
  if index < contentLine.value.length then
    if toLowerAscii (paramGetText contentLine.params "ENCODING") = "quoted-printable" then
      match qpDecode (Value.getText (contentLine.value.getD index [])) with
      | none => (contentLine.value.getD index [], Value.getText (contentLine.value.getD index []))
      | some d => (contentLine.value.getD index [], d)
    else
      (contentLine.value.getD index [], Value.getText (contentLine.value.getD index []))
  else
    ([], "")

/-- The `Photo` record of the Go source. -/
structure Photo where
  Encoding : String
  «Type» : String
  Value : String
  Data : String
deriving DecidableEq

/-- `defaultAddressTypes` from the Go source. -/
def defaultAddressTypes : List String :=
  ["Intl", "Postal", "Parcel", "Work"]

/-- The `Address` record of the Go source. -/
structure Address where
  «Type» : List String
  Label : String
  PostOfficeBox : String
  ExtendedAddress : String
  Street : String
  Locality : String
  Region : String
  PostalCode : String
  CountryName : String
deriving DecidableEq

/-- The `Telephone` record of the Go source. -/
structure Telephone where
  «Type» : List String
  Number : String
deriving DecidableEq

/-- The `Email` record of the Go source. -/
structure Email where
  «Type» : List String
  Address : String
deriving DecidableEq

/-- The `XJabber` record of the Go source. -/
structure XJabber where
  «Type» : List String
  Address : String
deriving DecidableEq

/-- The `VCard` record of the Go source. -/
structure VCard where
  Version : String
  FormattedName : String
  FamilyNames : List String
  GivenNames : List String
  AdditionalNames : List String
  HonorificNames : List String
  HonorificSuffixes : List String
  NickNames : List String
  Photo : Photo
  Birthday : String
  Addresses : List Address
  Telephones : List Telephone
  Emails : List Email
  Title : String
  Role : String
  Org : List String
  Categories : List String
  Note : String
  URL : String
  XJabbers : List XJabber
  XABuid : String
  XABShowAs : String
deriving DecidableEq

/-- The zero `VCard` (Go's zero value for the struct). -/
def emptyVCard : VCard :=
  { Version := "", FormattedName := "", FamilyNames := [], GivenNames := []
    AdditionalNames := [], HonorificNames := [], HonorificSuffixes := []
    NickNames := [], Photo := { Encoding := "", «Type» := "", Value := "", Data := "" }
    Birthday := "", Addresses := [], Telephones := [], Emails := []
    Title := "", Role := "", Org := [], Categories := [], Note := ""
    URL := "", XJabbers := [], XABuid := "", XABShowAs := "" }

/-- One iteration of the `switch` in `VCard.ReadFrom` of the Go source:
the effect of one content line on the vcard, together with the list of
diagnostic lines this iteration logs. The terminating `END`/`end` with
value `VCARD` case is handled by `VCard.readFrom`; here the `END` cases
are the source's no-op fallthrough (value different from `VCARD`). -/
def processLine (v : VCard) (cl : ContentLine) : VCard × List String :=
  if cl.name = "VERSION" ∨ cl.name = "version" then
    ({ v with Version := StructuredValue.getText cl.value }, [])
  else if cl.name = "END" ∨ cl.name = "end" then
    (v, [])
  else if cl.name = "FN" ∨ cl.name = "fn" then
    ({ v with FormattedName := StructuredValue.getText cl.value }, [])
  else if cl.name = "N" ∨ cl.name = "n" then
    if cl.value.length > 0 then
      ({ v with
          FamilyNames := (getValueFromContentLine familyNames cl).1
          GivenNames := (getValueFromContentLine givenNames cl).1
          AdditionalNames := (getValueFromContentLine additionalNames cl).1
          HonorificNames := (getValueFromContentLine honorificPrefixes cl).1
          HonorificSuffixes := (getValueFromContentLine honorificSuffixes cl).1 },
       if cl.value.length > nameSize then
         ["N data has more fields: " ++ toString cl.value.length]
       else if cl.value.length < nameSize then
         ["N data has less fields: " ++ toString cl.value.length]
       else [])
    else
      (v, ["Error: N data has no field"])
  else if cl.name = "NICKNAME" ∨ cl.name = "nickname" then
    ({ v with NickNames := StructuredValue.getTextList cl.value }, [])
  else if cl.name = "PHOTO" ∨ cl.name = "photo" then
    ({ v with Photo :=
        { Encoding := paramGetText cl.params "ENCODING"
          «Type» := paramGetText cl.params "TYPE"
          Value := paramGetText cl.params "VALUE"
          Data := StructuredValue.getText cl.value } }, [])
  else if cl.name = "BDAY" ∨ cl.name = "bday" then
    ({ v with Birthday := StructuredValue.getText cl.value }, [])
  else if cl.name = "ADR" ∨ cl.name = "adr" then
    if cl.value.length > 0 then
      let address : Address :=
        { «Type» :=
            match lookupParam cl.params "TYPE" with
            | some param => param
            | none => defaultAddressTypes
          Label := ""
          PostOfficeBox := (getValueFromContentLine postOfficeBox cl).2
          ExtendedAddress := (getValueFromContentLine extendedAddress cl).2
          Street := (getValueFromContentLine street cl).2
          Locality := (getValueFromContentLine locality cl).2
          Region := (getValueFromContentLine region cl).2
          PostalCode := (getValueFromContentLine postalCode cl).2
          CountryName := (getValueFromContentLine countryName cl).2 }
      ({ v with Addresses := v.Addresses ++ [address] },
       if cl.value.length > addressSize then
         ["ADR data has more fields: " ++ toString cl.value.length]
       else if cl.value.length < addressSize then
         ["ADR data has less fields: " ++ toString cl.value.length]
       else [])
    else
      (v, ["Error: ADR data has no field"])
  else if cl.name = "X-ABUID" ∨ cl.name = "x-abuid" then
    ({ v with XABuid := StructuredValue.getText cl.value }, [])
  else if cl.name = "TEL" ∨ cl.name = "tel" then
    let tel : Telephone :=
      { «Type» :=
          match lookupParam cl.params "type" with
          | some param => param
          | none => ["voice"]
        Number := StructuredValue.getText cl.value }
    ({ v with Telephones := v.Telephones ++ [tel] }, [])
  else if cl.name = "EMAIL" ∨ cl.name = "email" then
    let email : Email :=
      { «Type» :=
          match lookupParam cl.params "type" with
          | some param => param
          | none => ["HOME"]
        Address := StructuredValue.getText cl.value }
    ({ v with Emails := v.Emails ++ [email] }, [])
  else if cl.name = "TITLE" ∨ cl.name = "title" then
    ({ v with Title := StructuredValue.getText cl.value }, [])
  else if cl.name = "ROLE" ∨ cl.name = "role" then
    ({ v with Role := StructuredValue.getText cl.value }, [])
  else if cl.name = "ORG" ∨ cl.name = "org" then
    ({ v with Org := StructuredValue.getTextList cl.value }, [])
  else if cl.name = "CATEGORIES" ∨ cl.name = "categories" then
    ({ v with Categories := StructuredValue.getTextList cl.value }, [])
  else if cl.name = "NOTE" ∨ cl.name = "note" then
    ({ v with Note := StructuredValue.getText cl.value }, [])
  else if cl.name = "URL" ∨ cl.name = "url" then
    ({ v with URL := StructuredValue.getText cl.value }, [])
  else if cl.name = "X-JABBER" ∨ cl.name = "x-jabber" ∨
          cl.name = "X-GTALK" ∨ cl.name = "x-gtalk" then
    let jabber : XJabber :=
      { «Type» :=
          match lookupParam cl.params "type" with
          | some param => param
          | none => ["HOME"]
        Address := StructuredValue.getText cl.value }
    ({ v with XJabbers := v.XJabbers ++ [jabber] }, [])
  else if cl.name = "X-ABShowAs" then
    ({ v with XABShowAs := StructuredValue.getText cl.value }, [])
  else
    (v, ["Not read " ++ cl.group ++ ", " ++ cl.name])

/-- The condition under which `VCard.ReadFrom` returns from inside its
loop: an `END`/`end` content line whose value text is `VCARD`. -/
def isEndOfCard (cl : ContentLine) : Bool :=
  (cl.name == "END" || cl.name == "end") && StructuredValue.getText cl.value == "VCARD"

/-- `VCard.ReadFrom` of the Go source over a stream of content lines
(the `DirectoryInfoReader` modelled as the list of content lines it will
yield). Returns the final vcard, the concatenated log output, and the
part of the stream left unconsumed at the point `ReadFrom` returned. -/
def VCard.readFrom (v : VCard) : List ContentLine → VCard × List String × List ContentLine
  | [] => (v, [], [])
  | cl :: rest =>
    if isEndOfCard cl then
      (v, [], rest)
    else
      let p := processLine v cl
      let r := VCard.readFrom p.1 rest
      (r.1, p.2 ++ r.2.1, r.2.2)

/-- `Photo.WriteTo` of the Go source: the content lines it writes (none
when the photo data is empty). -/
def Photo.writeTo (photo : Photo) : List ContentLine :=
  if photo.Data.length = 0 then []
  else
    let ps : List (String × List String) :=
      (if photo.Encoding ≠ "" then [("ENCODING", [photo.Encoding])] else [])
      ++ (if photo.«Type» ≠ "" then [("type", [photo.«Type»])] else [])
      ++ (if photo.Value ≠ "" then [("VALUE", [photo.Value])] else [])
      ++ (if photo.Encoding = "" ∧ photo.«Type» = "" ∧ photo.Value = "" then
            [("BASE64", [])] else [])
    [⟨"", "PHOTO", ps, [[photo.Data]]⟩]

/-- `Address.WriteTo` of the Go source: the single content line it
writes. -/
def Address.writeTo (addr : Address) : ContentLine :=
  ⟨"", "ADR", [("type", addr.«Type»)],
   [[addr.PostOfficeBox], [addr.ExtendedAddress], [addr.Street], [addr.Locality],
    [addr.Region], [addr.PostalCode], [addr.CountryName]]⟩

/-- `Telephone.WriteTo` of the Go source: the single content line it
writes. -/
def Telephone.writeTo (tel : Telephone) : ContentLine :=
  ⟨"", "TEL", [("type", tel.«Type»)], [[tel.Number]]⟩

/-- `Email.WriteTo` of the Go source: the single content line it
writes. -/
def Email.writeTo (email : Email) : ContentLine :=
  ⟨"", "EMAIL", [("type", email.«Type»)], [[email.Address]]⟩

/-- `XJabber.WriteTo` of the Go source: the single content line it
writes. -/
def XJabber.writeTo (jab : XJabber) : ContentLine :=
  ⟨"", "X-JABBER", [("type", jab.«Type»)], [[jab.Address]]⟩

/-- `VCard.WriteTo` of the Go source: the sequence of content lines it
hands to the `DirectoryInfoWriter`, in order. -/
def VCard.writeTo (v : VCard) : List ContentLine :=
  [⟨"", "BEGIN", [], [["VCARD"]]⟩,
   ⟨"", "VERSION", [], [["3.0"]]⟩,
   ⟨"", "FN", [], [[v.FormattedName]]⟩,
   ⟨"", "N", [], [v.FamilyNames, v.GivenNames, v.AdditionalNames,
                  v.HonorificNames, v.HonorificSuffixes]⟩]
  ++ (if v.NickNames.length ≠ 0 then [⟨"", "NICKNAME", [], [v.NickNames]⟩] else [])
  ++ Photo.writeTo v.Photo
  ++ (if v.Birthday.length ≠ 0 then [⟨"", "BDAY", [], [[v.Birthday]]⟩] else [])
  ++ v.Addresses.map Address.writeTo
  ++ v.Telephones.map Telephone.writeTo
  ++ v.Emails.map Email.writeTo
  ++ (if v.Title.length ≠ 0 then [⟨"", "TITLE", [], [[v.Title]]⟩] else [])
  ++ (if v.Role.length ≠ 0 then [⟨"", "ROLE", [], [[v.Role]]⟩] else [])
  ++ (if v.Org.length ≠ 0 then [⟨"", "ORG", [], [v.Org]⟩] else [])
  ++ (if v.Categories.length ≠ 0 then [⟨"", "CATEGORIES", [], [v.Categories]⟩] else [])
  ++ (if v.Note.length ≠ 0 then [⟨"", "NOTE", [], [[v.Note]]⟩] else [])
  ++ (if v.URL.length ≠ 0 then [⟨"", "URL", [], [[v.URL]]⟩] else [])
  ++ v.XJabbers.map XJabber.writeTo
  ++ (if v.XABShowAs.length ≠ 0 then [⟨"", "X-ABShowAs", [], [[v.XABShowAs]]⟩] else [])
  ++ (if v.XABuid.length ≠ 0 then [⟨"", "X-ABUID", [], [[v.XABuid]]⟩] else [])
  ++ [⟨"", "END", [], [["VCARD"]]⟩]

/-- Appending a one-element list puts that element at `getLast?`. -/
theorem concat_getLast {α : Type} (l : List α) (a : α) : (l ++ [a]).getLast? = some a := by
  simp

/-- The component part of `getValueFromContentLine` is the indexed
component of the structured value, the empty list past its end. -/
theorem gvfcl_fst (idx : Nat) (cl : ContentLine) :
    (getValueFromContentLine idx cl).1 = cl.value.getD idx [] := by
  by_cases h : idx < cl.value.length
  · simp only [getValueFromContentLine, if_pos h]
    split
    · split <;> rfl
    · rfl
  · simp only [getValueFromContentLine, if_neg h]
    exact (List.getD_eq_default _ _ (Nat.le_of_not_lt h)).symm

/-- Under a declared quoted-printable encoding, the text part of
`getValueFromContentLine` is the decoded text with raw-text fallback. -/
theorem gvfcl_snd_qp (idx : Nat) (cl : ContentLine)
    (henc : toLowerAscii (paramGetText cl.params "ENCODING") = "quoted-printable") :
    (getValueFromContentLine idx cl).2 = decodeOrRaw (Value.getText (cl.value.getD idx [])) := by
  by_cases h : idx < cl.value.length
  · simp only [getValueFromContentLine, if_pos h, if_pos henc, decodeOrRaw]
    cases hq : qpDecode (Value.getText (cl.value.getD idx [])) <;> simp [hq]
  · simp only [getValueFromContentLine, if_neg h]
    rw [List.getD_eq_default _ _ (Nat.le_of_not_lt h)]
    rfl

/-- Filtering a key out of a parameter list makes its lookup miss. -/
theorem find_of_filter_ne (ps : List (String × List String)) (k : String) :
    (ps.filter (fun p => p.1 != k)).find? (fun p => p.1 == k) = none := by
  induction ps with
  | nil => rfl
  | cons p rest ih =>
    rw [List.filter_cons]
    by_cases h : p.1 = k
    · simp [h, ih]
    · simp [h, List.find?_cons, ih]

/-- Looking up `ENCODING` after `stripEncoding` always misses. -/
theorem lookupParam_strip (cl : ContentLine) :
    lookupParam (stripEncoding cl).params "ENCODING" = none := by
  simp only [stripEncoding, lookupParam]
  rw [find_of_filter_ne cl.params "ENCODING"]

/-- C6: for every `N` content line with at least one component,
`ReadFrom` assigns component 0 to `FamilyNames`, component 1 to
`GivenNames`, component 2 to `AdditionalNames`, component 3 to
`HonorificNames` and component 4 to `HonorificSuffixes`, a component
past the end of the value being the empty list rather than a fault. -/
theorem c6_n_component_positions (v : VCard) (cl : ContentLine)
    (hname : cl.name = "N" ∨ cl.name = "n") (hne : cl.value ≠ []) :
    (processLine v cl).1.FamilyNames = cl.value.getD familyNames []
  ∧ (processLine v cl).1.GivenNames = cl.value.getD givenNames []
  ∧ (processLine v cl).1.AdditionalNames = cl.value.getD additionalNames []
  ∧ (processLine v cl).1.HonorificNames = cl.value.getD honorificPrefixes []
  ∧ (processLine v cl).1.HonorificSuffixes = cl.value.getD honorificSuffixes [] := by
  have hlen : 0 < cl.value.length := List.length_pos.mpr hne
  rcases hname with h | h <;> simp [processLine, h, hlen, gvfcl_fst]

/-- Witness for C6 on a concrete two-component `N` line: the fifth
(and later) positions fall past the end and come out empty. -/
theorem c6_witness :
    (processLine emptyVCard ⟨"", "N", [], [["Doe"], ["John"]]⟩).1.FamilyNames = ["Doe"]
  ∧ (processLine emptyVCard ⟨"", "N", [], [["Doe"], ["John"]]⟩).1.GivenNames = ["John"]
  ∧ (processLine emptyVCard ⟨"", "N", [], [["Doe"], ["John"]]⟩).1.AdditionalNames = []
  ∧ (processLine emptyVCard ⟨"", "N", [], [["Doe"], ["John"]]⟩).1.HonorificNames = []
  ∧ (processLine emptyVCard ⟨"", "N", [], [["Doe"], ["John"]]⟩).1.HonorificSuffixes = [] :=
  c6_n_component_positions emptyVCard ⟨"", "N", [], [["Doe"], ["John"]]⟩ (Or.inl rfl) (by decide)

/-- C8: `getValueFromContentLine` is total over every index: past the
end of the structured value it returns the empty list and empty string
rather than faulting, and in range it returns the component at the
index. -/
theorem c8_gvfcl_total :
    (∀ (idx : Nat) (cl : ContentLine), cl.value.length ≤ idx →
       getValueFromContentLine idx cl = ([], ""))
  ∧ (∀ (idx : Nat) (cl : ContentLine) (h : idx < cl.value.length),
       (getValueFromContentLine idx cl).1 = cl.value.get ⟨idx, h⟩) := by
  constructor
  · intro idx cl h
    simp [getValueFromContentLine, Nat.not_lt.mpr h]
  · intro idx cl h
    rw [gvfcl_fst, List.getD_eq_getElem _ _ h]
    simp

/-- Witness for C8 at a concrete line: index 2 is out of range for a
two-component value, index 0 is in range. -/
theorem c8_witness :
    getValueFromContentLine 2 ⟨"", "N", [], [["Doe"], ["John"]]⟩ = ([], "")
  ∧ (getValueFromContentLine 0 ⟨"", "N", [], [["Doe"], ["John"]]⟩).1 = ["Doe"] :=
  ⟨c8_gvfcl_total.1 2 ⟨"", "N", [], [["Doe"], ["John"]]⟩ (by decide),
   c8_gvfcl_total.2 0 ⟨"", "N", [], [["Doe"], ["John"]]⟩ (by decide)⟩

/-- C9: `WriteTo` writes `BEGIN:VCARD` as the first content line,
`END:VCARD` as the last, and always writes the `VERSION` content line
with value `3.0`, regardless of the string stored in the `Version`
field. -/
theorem c9_writeTo_frame (v : VCard) :
    (VCard.writeTo v).head? = some ⟨"", "BEGIN", [], [["VCARD"]]⟩
  ∧ (VCard.writeTo v)[1]? = some ⟨"", "VERSION", [], [["3.0"]]⟩
  ∧ (VCard.writeTo v).getLast? = some ⟨"", "END", [], [["VCARD"]]⟩ := by
  refine ⟨by simp [VCard.writeTo], by simp [VCard.writeTo], ?_⟩
  unfold VCard.writeTo
  exact concat_getLast _ _

/-- C1: `ReadFrom` consumes content lines one at a time and returns
exactly at the first content line whose name is `END` (or `end`) with
value text `VCARD` — leaving precisely the rest of the stream
unconsumed — or, when no such line occurs, at the exhaustion of the
stream; an `END` line whose value is not `VCARD` does not terminate the
read and has no effect at all on the state. -/
theorem c1_readFrom_end_vcard :
    (∀ (v : VCard) (pre : List ContentLine) (cl : ContentLine) (rest : List ContentLine),
       (∀ c ∈ pre, isEndOfCard c = false) → isEndOfCard cl = true →
       (VCard.readFrom v (pre ++ cl :: rest)).2.2 = rest)
  ∧ (∀ (v : VCard) (stream : List ContentLine),
       (∀ c ∈ stream, isEndOfCard c = false) →
       (VCard.readFrom v stream).2.2 = [])
  ∧ (∀ (v : VCard) (cl : ContentLine) (rest : List ContentLine),
       (cl.name = "END" ∨ cl.name = "end") →
       StructuredValue.getText cl.value ≠ "VCARD" →
       VCard.readFrom v (cl :: rest) = VCard.readFrom v rest) := by
  refine ⟨?_, ?_, ?_⟩
  · intro v pre cl rest hpre hcl
    induction pre generalizing v with
    | nil => simp [VCard.readFrom, hcl]
    | cons x xs ih =>
      have hx : isEndOfCard x = false := hpre x (List.mem_cons_self x xs)
      have hxs : ∀ c ∈ xs, isEndOfCard c = false :=
        fun c hc => hpre c (List.mem_cons_of_mem x hc)
      simp only [List.cons_append, VCard.readFrom, hx, Bool.false_eq_true, if_false]
      exact ih (processLine v x).1 hxs
  · intro v stream hstream
    induction stream generalizing v with
    | nil => rfl
    | cons x xs ih =>
      have hx : isEndOfCard x = false := hstream x (List.mem_cons_self x xs)
      have hxs : ∀ c ∈ xs, isEndOfCard c = false :=
        fun c hc => hstream c (List.mem_cons_of_mem x hc)
      simp only [VCard.readFrom, hx, Bool.false_eq_true, if_false]
      exact ih (processLine v x).1 hxs
  · intro v cl rest hname hval
    rcases hname with h | h <;>
      simp [VCard.readFrom, isEndOfCard, processLine, h, hval]

/-- Witness for C1 on concrete streams: the read returns exactly at
`END:VCARD`, consumes everything when no terminator occurs, and treats
`END:GROUP` as a non-terminating no-op. -/
theorem c1_witness :
    (VCard.readFrom emptyVCard
       ([⟨"", "FN", [], [["x"]]⟩] ++ ⟨"", "END", [], [["VCARD"]]⟩ :: [⟨"", "TEL", [], [["5"]]⟩])).2.2
      = [⟨"", "TEL", [], [["5"]]⟩]
  ∧ (VCard.readFrom emptyVCard [⟨"", "END", [], [["GROUP"]]⟩]).2.2 = []
  ∧ VCard.readFrom emptyVCard (⟨"", "END", [], [["GROUP"]]⟩ :: [⟨"", "FN", [], [["x"]]⟩])
      = VCard.readFrom emptyVCard [⟨"", "FN", [], [["x"]]⟩] :=
  ⟨c1_readFrom_end_vcard.1 emptyVCard [⟨"", "FN", [], [["x"]]⟩] ⟨"", "END", [], [["VCARD"]]⟩
     [⟨"", "TEL", [], [["5"]]⟩] (by decide) (by decide),
   c1_readFrom_end_vcard.2.1 emptyVCard [⟨"", "END", [], [["GROUP"]]⟩] (by decide),
   c1_readFrom_end_vcard.2.2 emptyVCard ⟨"", "END", [], [["GROUP"]]⟩ [⟨"", "FN", [], [["x"]]⟩]
     (Or.inl rfl) (by decide)⟩

/-- C3: a quoted-printable decode failure is non-fatal: the component
keeps the original raw text instead of being discarded, and the read of
the stream continues past the line with the failing value. -/
theorem c3_decode_failure_nonfatal :
    (∀ (idx : Nat) (cl : ContentLine),
       idx < cl.value.length →
       toLowerAscii (paramGetText cl.params "ENCODING") = "quoted-printable" →
       qpDecode (Value.getText (cl.value.getD idx [])) = none →
       getValueFromContentLine idx cl
         = (cl.value.getD idx [], Value.getText (cl.value.getD idx [])))
  ∧ (∀ (v : VCard) (cl : ContentLine) (rest : List ContentLine),
       isEndOfCard cl = false →
       (VCard.readFrom v (cl :: rest)).2.2
         = (VCard.readFrom (processLine v cl).1 rest).2.2) := by
  constructor
  · intro idx cl hidx henc hfail
    simp only [getValueFromContentLine, if_pos hidx, if_pos henc, hfail]
  · intro v cl rest hcl
    simp [VCard.readFrom, hcl]

/-- Witness for C3 at a concrete `ADR` line whose value `=Z` is a
malformed quoted-printable escape: the raw text is kept and the
following line is still read. -/
theorem c3_witness :
    getValueFromContentLine 0 ⟨"", "ADR", [("ENCODING", ["QUOTED-PRINTABLE"])], [["=Z"]]⟩
      = (["=Z"], "=Z")
  ∧ (VCard.readFrom emptyVCard
       (⟨"", "ADR", [("ENCODING", ["QUOTED-PRINTABLE"])], [["=Z"]]⟩ :: [⟨"", "FN", [], [["x"]]⟩])).2.2
      = (VCard.readFrom
          (processLine emptyVCard ⟨"", "ADR", [("ENCODING", ["QUOTED-PRINTABLE"])], [["=Z"]]⟩).1
          [⟨"", "FN", [], [["x"]]⟩]).2.2 :=
  ⟨c3_decode_failure_nonfatal.1 0 ⟨"", "ADR", [("ENCODING", ["QUOTED-PRINTABLE"])], [["=Z"]]⟩
     (by decide) (by decide) (by decide),
   c3_decode_failure_nonfatal.2 emptyVCard ⟨"", "ADR", [("ENCODING", ["QUOTED-PRINTABLE"])], [["=Z"]]⟩
     [⟨"", "FN", [], [["x"]]⟩] (by decide)⟩

/-- C10: with no type parameter under the looked-up key, `ReadFrom`
substitutes the fixed defaults — `Intl, Postal, Parcel, Work` for `ADR`,
`voice` for `TEL`, `HOME` for `EMAIL` and `X-JABBER`/`X-GTALK` — and
stores the parameter value list unchanged when it is present. -/
theorem c10_default_type_lists :
    (∀ (v : VCard) (cl : ContentLine), (cl.name = "ADR" ∨ cl.name = "adr") → cl.value ≠ [] →
       lookupParam cl.params "TYPE" = none →
       ((processLine v cl).1.Addresses.getLast?.map Address.«Type»)
         = some ["Intl", "Postal", "Parcel", "Work"])
  ∧ (∀ (v : VCard) (cl : ContentLine) (ps : List String),
       (cl.name = "ADR" ∨ cl.name = "adr") → cl.value ≠ [] →
       lookupParam cl.params "TYPE" = some ps →
       ((processLine v cl).1.Addresses.getLast?.map Address.«Type») = some ps)
  ∧ (∀ (v : VCard) (cl : ContentLine), (cl.name = "TEL" ∨ cl.name = "tel") →
       lookupParam cl.params "type" = none →
       ((processLine v cl).1.Telephones.getLast?.map Telephone.«Type») = some ["voice"])
  ∧ (∀ (v : VCard) (cl : ContentLine) (ps : List String),
       (cl.name = "TEL" ∨ cl.name = "tel") →
       lookupParam cl.params "type" = some ps →
       ((processLine v cl).1.Telephones.getLast?.map Telephone.«Type») = some ps)
  ∧ (∀ (v : VCard) (cl : ContentLine), (cl.name = "EMAIL" ∨ cl.name = "email") →
       lookupParam cl.params "type" = none →
       ((processLine v cl).1.Emails.getLast?.map Email.«Type») = some ["HOME"])
  ∧ (∀ (v : VCard) (cl : ContentLine) (ps : List String),
       (cl.name = "EMAIL" ∨ cl.name = "email") →
       lookupParam cl.params "type" = some ps →
       ((processLine v cl).1.Emails.getLast?.map Email.«Type») = some ps)
  ∧ (∀ (v : VCard) (cl : ContentLine),
       (cl.name = "X-JABBER" ∨ cl.name = "x-jabber" ∨ cl.name = "X-GTALK" ∨ cl.name = "x-gtalk") →
       lookupParam cl.params "type" = none →
       ((processLine v cl).1.XJabbers.getLast?.map XJabber.«Type») = some ["HOME"])
  ∧ (∀ (v : VCard) (cl : ContentLine) (ps : List String),
       (cl.name = "X-JABBER" ∨ cl.name = "x-jabber" ∨ cl.name = "X-GTALK" ∨ cl.name = "x-gtalk") →
       lookupParam cl.params "type" = some ps →
       ((processLine v cl).1.XJabbers.getLast?.map XJabber.«Type») = some ps) := by
  refine ⟨?_, ?_, ?_, ?_, ?_, ?_, ?_, ?_⟩
  · intro v cl hname hne hl
    have hlen : 0 < cl.value.length := List.length_pos.mpr hne
    rcases hname with h | h <;>
      simp [processLine, h, hlen, hl, concat_getLast, defaultAddressTypes]
  · intro v cl ps hname hne hl
    have hlen : 0 < cl.value.length := List.length_pos.mpr hne
    rcases hname with h | h <;>
      simp [processLine, h, hlen, hl, concat_getLast]
  · intro v cl hname hl
    rcases hname with h | h <;> simp [processLine, h, hl, concat_getLast]
  · intro v cl ps hname hl
    rcases hname with h | h <;> simp [processLine, h, hl, concat_getLast]
  · intro v cl hname hl
    rcases hname with h | h <;> simp [processLine, h, hl, concat_getLast]
  · intro v cl ps hname hl
    rcases hname with h | h <;> simp [processLine, h, hl, concat_getLast]
  · intro v cl hname hl
    rcases hname with h | h | h | h <;> simp [processLine, h, hl, concat_getLast]
  · intro v cl ps hname hl
    rcases hname with h | h | h | h <;> simp [processLine, h, hl, concat_getLast]

/-- Witness for C10 at concrete lines with and without type
parameters. -/
theorem c10_witness :
    ((processLine emptyVCard ⟨"", "ADR", [], [["Box"]]⟩).1.Addresses.getLast?.map Address.«Type»)
      = some ["Intl", "Postal", "Parcel", "Work"]
  ∧ ((processLine emptyVCard ⟨"", "ADR", [("TYPE", ["WORK"])], [["Box"]]⟩).1.Addresses.getLast?.map
       Address.«Type») = some ["WORK"]
  ∧ ((processLine emptyVCard ⟨"", "TEL", [], [["5"]]⟩).1.Telephones.getLast?.map Telephone.«Type»)
      = some ["voice"]
  ∧ ((processLine emptyVCard ⟨"", "TEL", [("type", ["CELL"])], [["5"]]⟩).1.Telephones.getLast?.map
       Telephone.«Type») = some ["CELL"]
  ∧ ((processLine emptyVCard ⟨"", "EMAIL", [], [["a"]]⟩).1.Emails.getLast?.map Email.«Type»)
      = some ["HOME"]
  ∧ ((processLine emptyVCard ⟨"", "EMAIL", [("type", ["WORK"])], [["a"]]⟩).1.Emails.getLast?.map
       Email.«Type») = some ["WORK"]
  ∧ ((processLine emptyVCard ⟨"", "X-GTALK", [], [["j"]]⟩).1.XJabbers.getLast?.map XJabber.«Type»)
      = some ["HOME"]
  ∧ ((processLine emptyVCard ⟨"", "X-JABBER", [("type", ["WORK"])], [["j"]]⟩).1.XJabbers.getLast?.map
       XJabber.«Type») = some ["WORK"] :=
  ⟨c10_default_type_lists.1 emptyVCard ⟨"", "ADR", [], [["Box"]]⟩ (Or.inl rfl) (by decide) (by decide),
   c10_default_type_lists.2.1 emptyVCard ⟨"", "ADR", [("TYPE", ["WORK"])], [["Box"]]⟩ ["WORK"]
     (Or.inl rfl) (by decide) (by decide),
   c10_default_type_lists.2.2.1 emptyVCard ⟨"", "TEL", [], [["5"]]⟩ (Or.inl rfl) (by decide),
   c10_default_type_lists.2.2.2.1 emptyVCard ⟨"", "TEL", [("type", ["CELL"])], [["5"]]⟩ ["CELL"]
     (Or.inl rfl) (by decide),
   c10_default_type_lists.2.2.2.2.1 emptyVCard ⟨"", "EMAIL", [], [["a"]]⟩ (Or.inl rfl) (by decide),
   c10_default_type_lists.2.2.2.2.2.1 emptyVCard ⟨"", "EMAIL", [("type", ["WORK"])], [["a"]]⟩
     ["WORK"] (Or.inl rfl) (by decide),
   c10_default_type_lists.2.2.2.2.2.2.1 emptyVCard ⟨"", "X-GTALK", [], [["j"]]⟩
     (Or.inr (Or.inr (Or.inl rfl))) (by decide),
   c10_default_type_lists.2.2.2.2.2.2.2 emptyVCard ⟨"", "X-JABBER", [("type", ["WORK"])], [["j"]]⟩
     ["WORK"] (Or.inl rfl) (by decide)⟩

/-- C2, counterexample: on an `FN` line declaring
`ENCODING=QUOTED-PRINTABLE` with value `=41`, the decoder yields `A`,
yet `FormattedName` receives the raw text `=41` — the value delivered to
the contact field is not the decoded text. -/
theorem c2_counterexample :
    qpDecode "=41" = some "A"
  ∧ (processLine emptyVCard
       ⟨"", "FN", [("ENCODING", ["QUOTED-PRINTABLE"])], [["=41"]]⟩).1.FormattedName = "=41"
  ∧ ("=41" : String) ≠ "A" := by
  refine ⟨by decide, by decide, by decide⟩

/-- C2, amended: under a declared quoted-printable encoding only the
`ADR` component strings pass through the decoder (with raw-text
fallback on failure); the `N` components are stored as the raw component
lists, and a value read directly through `GetText` — `FN` here — is
delivered as the raw text. -/
theorem c2_amended_only_adr_strings_decoded (v : VCard) (cl : ContentLine) :
    ((cl.name = "ADR" ∨ cl.name = "adr") → cl.value ≠ [] →
       toLowerAscii (paramGetText cl.params "ENCODING") = "quoted-printable" →
       (processLine v cl).1.Addresses.getLast? = some
         { «Type» :=
             match lookupParam cl.params "TYPE" with
             | some param => param
             | none => defaultAddressTypes
           Label := ""
           PostOfficeBox := decodeOrRaw (Value.getText (cl.value.getD postOfficeBox []))
           ExtendedAddress := decodeOrRaw (Value.getText (cl.value.getD extendedAddress []))
           Street := decodeOrRaw (Value.getText (cl.value.getD street []))
           Locality := decodeOrRaw (Value.getText (cl.value.getD locality []))
           Region := decodeOrRaw (Value.getText (cl.value.getD region []))
           PostalCode := decodeOrRaw (Value.getText (cl.value.getD postalCode []))
           CountryName := decodeOrRaw (Value.getText (cl.value.getD countryName [])) })
  ∧ ((cl.name = "N" ∨ cl.name = "n") → cl.value ≠ [] →
       (processLine v cl).1.FamilyNames = cl.value.getD familyNames [])
  ∧ ((cl.name = "FN" ∨ cl.name = "fn") →
       (processLine v cl).1.FormattedName = StructuredValue.getText cl.value) := by
  refine ⟨?_, ?_, ?_⟩
  · intro hname hne henc
    have hlen : 0 < cl.value.length := List.length_pos.mpr hne
    rcases hname with h | h <;>
      simp [processLine, h, hlen, concat_getLast, gvfcl_snd_qp _ _ henc]
  · intro hname hne
    have hlen : 0 < cl.value.length := List.length_pos.mpr hne
    rcases hname with h | h <;> simp [processLine, h, hlen, gvfcl_fst]
  · intro hname
    rcases hname with h | h <;> simp [processLine, h]

/-- Witness for the amended C2 at a concrete `ADR`/`N`/`FN` triple
under `ENCODING=QUOTED-PRINTABLE`. -/
theorem c2_amended_witness :
    (processLine emptyVCard
       ⟨"", "ADR", [("ENCODING", ["QUOTED-PRINTABLE"])], [["=41"]]⟩).1.Addresses.getLast?
      = some { «Type» := ["Intl", "Postal", "Parcel", "Work"], Label := ""
               PostOfficeBox := "A", ExtendedAddress := "", Street := "", Locality := ""
               Region := "", PostalCode := "", CountryName := "" }
  ∧ (processLine emptyVCard
       ⟨"", "N", [("ENCODING", ["QUOTED-PRINTABLE"])], [["=41"]]⟩).1.FamilyNames = ["=41"]
  ∧ (processLine emptyVCard
       ⟨"", "FN", [("ENCODING", ["QUOTED-PRINTABLE"])], [["=41"]]⟩).1.FormattedName = "=41" :=
  ⟨(c2_amended_only_adr_strings_decoded emptyVCard
      ⟨"", "ADR", [("ENCODING", ["QUOTED-PRINTABLE"])], [["=41"]]⟩).1
     (Or.inl rfl) (by decide) (by decide),
   (c2_amended_only_adr_strings_decoded emptyVCard
      ⟨"", "N", [("ENCODING", ["QUOTED-PRINTABLE"])], [["=41"]]⟩).2.1
     (Or.inl rfl) (by decide),
   (c2_amended_only_adr_strings_decoded emptyVCard
      ⟨"", "FN", [("ENCODING", ["QUOTED-PRINTABLE"])], [["=41"]]⟩).2.2
     (Or.inl rfl)⟩

/-- C4: the parameter map is consulted by exact-case keys, so the
lookups under `TYPE` and `type` are not interchangeable: a parameter
stored as `TYPE` is found by the `ADR` branch but missed by the `TEL`
branch, which then substitutes its default — evaluating the code at the
failing input. -/
theorem c4_param_lookup_case_sensitive :
    lookupParam [("TYPE", (["WORK"] : List String))] "type" = none
  ∧ lookupParam [("TYPE", (["WORK"] : List String))] "TYPE" = some ["WORK"]
  ∧ (processLine emptyVCard ⟨"", "TEL", [("TYPE", ["WORK"])], [["5551234"]]⟩).1.Telephones
      = [{ «Type» := ["voice"], Number := "5551234" }]
  ∧ ((processLine emptyVCard ⟨"", "ADR", [("TYPE", ["WORK"])], [["Box"]]⟩).1.Addresses.map
       Address.«Type») = [["WORK"]] := by
  refine ⟨by decide, by decide, by decide, by decide⟩

/-- C5, counterexample: the mixed-case name `Fn` is not dispatched to
`FormattedName` as `FN` is; it falls to the unrecognized-name branch
(which logs) and leaves the card unchanged. -/
theorem c5_counterexample :
    (processLine emptyVCard ⟨"", "Fn", [], [["John Doe"]]⟩).1.FormattedName = ""
  ∧ (processLine emptyVCard ⟨"", "Fn", [], [["John Doe"]]⟩).2 ≠ []
  ∧ (processLine emptyVCard ⟨"", "FN", [], [["John Doe"]]⟩).1.FormattedName = "John Doe" := by
  refine ⟨by decide, by decide, by decide⟩

/-- C5, amended: the dispatch accepts exactly the all-uppercase and the
all-lowercase spelling of a property name — `FN` and `fn` update
`FormattedName` identically and silently — while a mixed-case spelling
such as `Fn` is routed to the unrecognized-name branch: it logs a
diagnostic and leaves the card unchanged. -/
theorem c5_amended_two_spellings_only :
    (∀ (v : VCard) (cl : ContentLine), (cl.name = "FN" ∨ cl.name = "fn") →
       (processLine v cl).1.FormattedName = StructuredValue.getText cl.value
       ∧ (processLine v cl).2 = [])
  ∧ (∀ (v : VCard) (cl : ContentLine), cl.name = "Fn" →
       (processLine v cl).1 = v
       ∧ (processLine v cl).2 = ["Not read " ++ cl.group ++ ", " ++ cl.name]) := by
  constructor
  · intro v cl hname
    rcases hname with h | h <;> simp [processLine, h]
  · intro v cl h
    simp [processLine, h]

/-- Witness for the amended C5 at concrete `FN`, `fn` and `Fn` lines. -/
theorem c5_amended_witness :
    ((processLine emptyVCard ⟨"", "FN", [], [["John"]]⟩).1.FormattedName = "John"
       ∧ (processLine emptyVCard ⟨"", "FN", [], [["John"]]⟩).2 = [])
  ∧ ((processLine emptyVCard ⟨"", "fn", [], [["John"]]⟩).1.FormattedName = "John"
       ∧ (processLine emptyVCard ⟨"", "fn", [], [["John"]]⟩).2 = [])
  ∧ ((processLine emptyVCard ⟨"g", "Fn", [], [["John"]]⟩).1 = emptyVCard
       ∧ (processLine emptyVCard ⟨"g", "Fn", [], [["John"]]⟩).2 = ["Not read g, Fn"]) :=
  ⟨c5_amended_two_spellings_only.1 emptyVCard ⟨"", "FN", [], [["John"]]⟩ (Or.inl rfl),
   c5_amended_two_spellings_only.1 emptyVCard ⟨"", "fn", [], [["John"]]⟩ (Or.inr rfl),
   c5_amended_two_spellings_only.2 emptyVCard ⟨"g", "Fn", [], [["John"]]⟩ rfl⟩

/-- C7, counterexample: on an `ADR` line whose value `=Z` fails
quoted-printable decoding, the whole observable outcome of the read —
resulting card and log output alike — is identical to that of the same
line with no encoding declared at all: the decode error is dropped
without any error return or diagnostic. -/
theorem c7_counterexample :
    qpDecode "=Z" = none
  ∧ processLine emptyVCard ⟨"", "ADR", [("ENCODING", ["QUOTED-PRINTABLE"])], [["=Z"]]⟩
      = processLine emptyVCard ⟨"", "ADR", [], [["=Z"]]⟩ := by
  refine ⟨by decide, by decide⟩

/-- C7, amended: a quoted-printable decode failure inside
`getValueFromContentLine` is silently swallowed — the function has no
error output and its result on the failing line is exactly its result on
the line with the `ENCODING` declaration stripped. -/
theorem c7_amended_decode_failure_silent (idx : Nat) (cl : ContentLine)
    (hfail : qpDecode (Value.getText (cl.value.getD idx [])) = none) :
    getValueFromContentLine idx cl = getValueFromContentLine idx (stripEncoding cl) := by
  have hval : (stripEncoding cl).value = cl.value := rfl
  have hmiss : toLowerAscii (paramGetText (stripEncoding cl).params "ENCODING")
      = toLowerAscii (Value.getText ((none : Option Value).getD [])) := by
    rw [paramGetText, lookupParam_strip]
  by_cases h : idx < cl.value.length
  · rw [getValueFromContentLine, getValueFromContentLine, hval, if_pos h, if_pos h, hmiss]
    by_cases henc : toLowerAscii (paramGetText cl.params "ENCODING") = "quoted-printable"
    · rw [if_pos henc, if_neg (by decide), hfail]
    · rw [if_neg henc, if_neg (by decide)]
  · rw [getValueFromContentLine, getValueFromContentLine, hval, if_neg h, if_neg h]

/-- Witness for the amended C7 at the concrete failing value `=Z`. -/
theorem c7_amended_witness :
    getValueFromContentLine 0 ⟨"", "ADR", [("ENCODING", ["QUOTED-PRINTABLE"])], [["=Z"]]⟩
      = getValueFromContentLine 0
          (stripEncoding ⟨"", "ADR", [("ENCODING", ["QUOTED-PRINTABLE"])], [["=Z"]]⟩) :=
  c7_amended_decode_failure_silent 0 ⟨"", "ADR", [("ENCODING", ["QUOTED-PRINTABLE"])], [["=Z"]]⟩
    (by decide)

end vcard
